import Mathlib

/-!
Verification of the masking transformer of this repository
(`src/transformer.py`).

The file has two layers:

* a shallow embedding of the Python functions that generate SQL text
  (`get_database_type`, `quote_field_name`, `quote_table_name`,
  `get_masked_field_sql`, and the statement assembly inside
  `executeTransformer`), as pure Lean functions on `String`;

* a denotational model of the generated SQL scalar expressions
  (`maskEval`), built from models of the engine string functions that the
  generated text uses (`RIGHT`, `LEFT`, `SUBSTRING`, `CHARINDEX`, `LEN`,
  `LENGTH`, `SPLIT_PART`, `LIKE`), evaluating a masking expression on one
  column value.  SQL `NULL` is `Option.none`; strings are `List Char`.
-/

namespace YellowTransformer

/-- Helper for `pyIn`: `containsSeq n h` is true iff `n` occurs
contiguously inside `h`. -/
def containsSeq (n : List Char) : List Char → Bool
  | [] => n.isEmpty
  | c :: rest => n.isPrefixOf (c :: rest) || containsSeq n rest

/-- Model of the Python `in` operator on strings: substring containment. -/
def pyIn (needle hay : String) : Bool :=
  containsSeq needle.data hay.data

/-- Model of Python `str.lower()`, lowercasing character by character. -/
def pyLower (s : String) : String :=
  ⟨s.data.map Char.toLower⟩

/-- From `get_database_type` in transformer.py.  The Python function reads
`conn.dialect.name`; the connection is modelled by that reported driver
name, passed here as `dialect_name`. -/
def get_database_type (dialect_name : String) : String :=
  let dl := pyLower dialect_name
  if pyIn "postgresql" dl || pyIn "postgres" dl then
    "postgresql"
  else if pyIn "mssql" dl || pyIn "sqlserver" dl then
    "sqlserver"
  else
    -- Default to PostgreSQL syntax
    "postgresql"

/-- From `quote_field_name` in transformer.py. -/
def quote_field_name (field_name : String) (db_type : String) : String :=
  if db_type = "sqlserver" then
    "[" ++ field_name ++ "]"
  else  -- PostgreSQL
    "\"" ++ field_name ++ "\""

/-- From `quote_table_name` in transformer.py. -/
def quote_table_name (table_name : String) (db_type : String) : String :=
  if db_type = "sqlserver" then
    "[" ++ table_name ++ "]"
  else  -- PostgreSQL
    "\"" ++ table_name ++ "\""

/-- From `get_masked_field_sql` in transformer.py.  Each branch reproduces
the Python f-string byte for byte (including the newlines and indentation
of the triple-quoted email templates). -/
def get_masked_field_sql (field_name : String) (mask_pattern : String) (db_type : String) : String :=
  let quoted_field := quote_field_name field_name db_type
  if db_type = "sqlserver" then
    if mask_pattern = "name" then  -- For firstname/lastname - show last 2 chars
      "CASE WHEN " ++ quoted_field ++ " IS NOT NULL THEN '***' + RIGHT(" ++ quoted_field ++ ", 2) ELSE NULL END"
    else if mask_pattern = "phone" then  -- For phone - show last 4 chars
      "CASE WHEN " ++ quoted_field ++ " IS NOT NULL THEN '***-***-' + RIGHT(" ++ quoted_field ++ ", 4) ELSE NULL END"
    else if mask_pattern = "id" then  -- For IDs - show last 3 chars
      "CASE WHEN " ++ quoted_field ++ " IS NOT NULL THEN '***' + RIGHT(" ++ quoted_field ++ ", 3) ELSE NULL END"
    else if mask_pattern = "email" then  -- For email - complex masking
      "CASE\n                WHEN " ++ quoted_field ++ " IS NOT NULL AND " ++ quoted_field
        ++ " LIKE '%%@%%' AND CHARINDEX('@', " ++ quoted_field ++ ") > 3\n                THEN LEFT("
        ++ quoted_field ++ ", 3) + '***@' +\n                     SUBSTRING(" ++ quoted_field
        ++ ", CHARINDEX('@', " ++ quoted_field ++ ") + 1,\n                               LEN("
        ++ quoted_field ++ ") - CHARINDEX('@', " ++ quoted_field ++ "))\n                ELSE NULL\n            END"
    else
      -- Default fallback - should never reach here with valid inputs
      "CASE WHEN " ++ quoted_field ++ " IS NOT NULL THEN '***' ELSE NULL END"
  else  -- PostgreSQL
    if mask_pattern = "name" then  -- For firstname/lastname - show last 2 chars
      "CASE WHEN " ++ quoted_field ++ " IS NOT NULL THEN '***' || SUBSTRING(" ++ quoted_field
        ++ ", LENGTH(" ++ quoted_field ++ ") - 1) ELSE NULL END"
    else if mask_pattern = "phone" then  -- For phone - show last 4 chars
      "CASE WHEN " ++ quoted_field ++ " IS NOT NULL THEN '***-***-' || SUBSTRING(" ++ quoted_field
        ++ ", LENGTH(" ++ quoted_field ++ ") - 3) ELSE NULL END"
    else if mask_pattern = "id" then  -- For IDs - show last 3 chars
      "CASE WHEN " ++ quoted_field ++ " IS NOT NULL THEN '***' || SUBSTRING(" ++ quoted_field
        ++ ", LENGTH(" ++ quoted_field ++ ") - 2) ELSE NULL END"
    else if mask_pattern = "email" then  -- For email - complex masking
      "CASE\n                WHEN " ++ quoted_field ++ " IS NOT NULL AND " ++ quoted_field
        ++ " LIKE '%%@%%'\n                THEN SUBSTRING(" ++ quoted_field
        ++ ", 1, 3) || '***@' || SPLIT_PART(" ++ quoted_field ++ ", '@', 2)\n                ELSE NULL\n            END"
    else
      -- Default fallback - should never reach here with valid inputs
      "CASE WHEN " ++ quoted_field ++ " IS NOT NULL THEN '***' ELSE NULL END"

/-- The `INSERT INTO … SELECT …` statement assembled inside
`executeTransformer` (transformer.py lines 173-208), reproduced byte for
byte from the Python f-string, as a function of the detected database
type and the two already-resolved table names. -/
def insertQuery (db_type sourceCustomerTableName outputCustomerTableName : String) : String :=
  -- Generate database-specific SQL for each field
  let firstname_sql := get_masked_field_sql "firstname" "name" db_type
  let lastname_sql := get_masked_field_sql "lastname" "name" db_type
  let email_sql := get_masked_field_sql "email" "email" db_type
  let phone_sql := get_masked_field_sql "phone" "phone" db_type
  let primaryaddressid_sql := get_masked_field_sql "primaryaddressid" "id" db_type
  let billingaddressid_sql := get_masked_field_sql "billingaddressid" "id" db_type
  -- Quote column names for database compatibility
  let id_col := quote_field_name "id" db_type
  let firstname_col := quote_field_name "firstname" db_type
  let lastname_col := quote_field_name "lastname" db_type
  let dob_col := quote_field_name "dob" db_type
  let email_col := quote_field_name "email" db_type
  let phone_col := quote_field_name "phone" db_type
  let primaryaddressid_col := quote_field_name "primaryaddressid" db_type
  let billingaddressid_col := quote_field_name "billingaddressid" db_type
  -- Quote table names for database compatibility
  let quoted_source_table := quote_table_name sourceCustomerTableName db_type
  let quoted_output_table := quote_table_name outputCustomerTableName db_type
  "\n    INSERT INTO " ++ quoted_output_table
    ++ "\n    (" ++ id_col ++ ", " ++ firstname_col ++ ", " ++ lastname_col ++ ", " ++ dob_col
    ++ ", " ++ email_col ++ ", " ++ phone_col ++ ", " ++ primaryaddressid_col ++ ", " ++ billingaddressid_col
    ++ ")\n    SELECT\n        " ++ id_col
    ++ ",\n        " ++ firstname_sql ++ " as " ++ firstname_col
    ++ ",\n        " ++ lastname_sql ++ " as " ++ lastname_col
    ++ ",\n        " ++ dob_col
    ++ ",\n        " ++ email_sql ++ " as " ++ email_col
    ++ ",\n        " ++ phone_sql ++ " as " ++ phone_col
    ++ ",\n        " ++ primaryaddressid_sql ++ " as " ++ primaryaddressid_col
    ++ ",\n        " ++ billingaddressid_sql ++ " as " ++ billingaddressid_col
    ++ "\n    FROM " ++ quoted_source_table
    ++ "\n    "

/-- The observable outcome of one `executeTransformer` run: the SQL
statement it executed, the messages it printed, and its Python return
value (`None` or a number). -/
structure ExecOutcome where
  query : String
  printed : List String
  returned : Option Nat
  deriving Repr, DecidableEq

/-- From `executeTransformer` in transformer.py, success path.  The
effectful pieces are made explicit: the connection is modelled by its
reported `dialect_name`, the context by the two table names it resolves,
and the engine by the `rowcount` its execution reports.  The Python
function is annotated `-> None` and ends without a return statement, so
`returned` is `none`. -/
def executeTransformer (dialect_name sourceCustomerTableName outputCustomerTableName : String)
    (rowcount : Nat) : ExecOutcome :=
  -- Detect database type
  let db_type := get_database_type dialect_name
  let insert_query := insertQuery db_type sourceCustomerTableName outputCustomerTableName
  { query := insert_query
    printed := ["Detected database type: " ++ db_type,
                "Successfully processed and masked " ++ toString rowcount ++ " customer records"]
    returned := none }

/-! ## Denotational model of the generated SQL expressions

SQL `NULL` is `Option.none`; a string value is a `List Char`. -/

/-- T-SQL `RIGHT(s, n)`: the last `n` characters (the whole string when it
is shorter than `n`). -/
def sqlRight (l : List Char) (n : Nat) : List Char :=
  l.drop (l.length - n)

/-- T-SQL `LEFT(s, n)`: the first `n` characters. -/
def sqlLeft (l : List Char) (n : Nat) : List Char :=
  l.take n

/-- T-SQL `LEN(s)`, modelled as the character count.  (The engine ignores
trailing spaces in `LEN`; the model agrees with it on every value without
trailing spaces.) -/
def sqlLen (l : List Char) : Nat := l.length

/-- T-SQL `SUBSTRING(s, start, len)` with a 1-based `start ≥ 1`. -/
def tsqlSubstring (l : List Char) (start len : Nat) : List Char :=
  (l.drop (start - 1)).take len

/-- T-SQL `CHARINDEX(c, s)`: 1-based position of the first occurrence of
`c` in `s`, and `0` when `c` is absent. -/
def charindex (c : Char) : List Char → Nat
  | [] => 0
  | x :: xs =>
    if x = c then 1
    else
      let r := charindex c xs
      if r = 0 then 0 else r + 1

/-- PostgreSQL `LENGTH(s)`. -/
def pgLength (l : List Char) : Nat := l.length

/-- PostgreSQL `SUBSTRING(s, start)` (no length argument): the characters
from 1-based position `start` to the end; positions before 1 contribute
nothing, so `start ≤ 1` yields the whole string.  `start` is an `Int`
because the generated SQL passes `LENGTH(s) - k`, which can be negative
on short inputs. -/
def pgSubstringFrom (l : List Char) (start : Int) : List Char :=
  l.drop (start - 1).toNat

/-- PostgreSQL `SUBSTRING(s, start, len)` for `start ≥ 1`, `len ≥ 0`. -/
def pgSubstring (l : List Char) (start len : Nat) : List Char :=
  (l.drop (start - 1)).take len

/-- Splitting a value on a separator character, as PostgreSQL
`SPLIT_PART` does internally: `n` separators yield `n + 1` fields. -/
def splitOnChar (sep : Char) : List Char → List (List Char)
  | [] => [[]]
  | c :: rest =>
    if c = sep then [] :: splitOnChar sep rest
    else
      match splitOnChar sep rest with
      | [] => [[c]]
      | h :: t => (c :: h) :: t

/-- PostgreSQL `SPLIT_PART(s, sep, n)` (1-based `n`): the `n`-th field of
the split, or the empty string when there are fewer fields. -/
def split_part (l : List Char) (sep : Char) (n : Nat) : List Char :=
  (splitOnChar sep l).getD (n - 1) []

/-- Evaluation, on one column value, of the SQL scalar expression that
`get_masked_field_sql` generates for `(mask_pattern, db_type)`.  The
branching on `db_type` and `mask_pattern` mirrors `get_masked_field_sql`;
each branch is the meaning of the `CASE` expression that branch of the
Python returns.  Every generated `CASE` guards with `field IS NOT NULL`
and ends `ELSE NULL`, so a `none` input always evaluates to `none`.
The pattern `'%%@%%'` of the generated `LIKE` is two wildcards, a literal
`@`, and two wildcards (`%` matches the empty sequence), so it holds
exactly when the value contains an `@`. -/
def maskEval (mask_pattern db_type : String) (v : Option (List Char)) : Option (List Char) :=
  match v with
  | none => none
  | some l =>
    if db_type = "sqlserver" then
      if mask_pattern = "name" then
        -- '***' + RIGHT(f, 2)
        some ("***".data ++ sqlRight l 2)
      else if mask_pattern = "phone" then
        -- '***-***-' + RIGHT(f, 4)
        some ("***-***-".data ++ sqlRight l 4)
      else if mask_pattern = "id" then
        -- '***' + RIGHT(f, 3)
        some ("***".data ++ sqlRight l 3)
      else if mask_pattern = "email" then
        -- WHEN f LIKE '%%@%%' AND CHARINDEX('@', f) > 3
        -- THEN LEFT(f, 3) + '***@'
        --      + SUBSTRING(f, CHARINDEX('@', f) + 1, LEN(f) - CHARINDEX('@', f))
        if '@' ∈ l ∧ charindex '@' l > 3 then
          some (sqlLeft l 3 ++ "***@".data
            ++ tsqlSubstring l (charindex '@' l + 1) (sqlLen l - charindex '@' l))
        else none
      else
        -- fallback: '***'
        some "***".data
    else  -- PostgreSQL
      if mask_pattern = "name" then
        -- '***' || SUBSTRING(f, LENGTH(f) - 1)
        some ("***".data ++ pgSubstringFrom l ((pgLength l : Int) - 1))
      else if mask_pattern = "phone" then
        -- '***-***-' || SUBSTRING(f, LENGTH(f) - 3)
        some ("***-***-".data ++ pgSubstringFrom l ((pgLength l : Int) - 3))
      else if mask_pattern = "id" then
        -- '***' || SUBSTRING(f, LENGTH(f) - 2)
        some ("***".data ++ pgSubstringFrom l ((pgLength l : Int) - 2))
      else if mask_pattern = "email" then
        -- WHEN f LIKE '%%@%%'
        -- THEN SUBSTRING(f, 1, 3) || '***@' || SPLIT_PART(f, '@', 2)
        if '@' ∈ l then
          some (pgSubstring l 1 3 ++ "***@".data ++ split_part l '@' 2)
        else none
      else
        -- fallback: '***'
        some "***".data

/-! ## Helper lemmas -/

theorem masked_sql_fallback (f p db : String) (h1 : p ≠ "name") (h2 : p ≠ "phone")
    (h3 : p ≠ "id") (h4 : p ≠ "email") :
    get_masked_field_sql f p db =
      "CASE WHEN " ++ quote_field_name f db ++ " IS NOT NULL THEN '***' ELSE NULL END" := by
  unfold get_masked_field_sql
  by_cases hdb : db = "sqlserver" <;> simp [hdb, h1, h2, h3, h4]

theorem maskEval_fallback (p db : String) (l : List Char) (h1 : p ≠ "name") (h2 : p ≠ "phone")
    (h3 : p ≠ "id") (h4 : p ≠ "email") :
    maskEval p db (some l) = some "***".data := by
  unfold maskEval
  by_cases hdb : db = "sqlserver" <;> simp [hdb, h1, h2, h3, h4]

theorem charindex_append_cons (c : Char) (pre post : List Char) (h : c ∉ pre) :
    charindex c (pre ++ c :: post) = pre.length + 1 := by
  induction pre with
  | nil => simp [charindex]
  | cons x xs ih =>
    have hx : x ≠ c := by intro e; exact h (by simp [e])
    have hxs : c ∉ xs := fun m => h (List.mem_cons_of_mem _ m)
    simp [charindex, hx, ih hxs]

theorem splitOnChar_of_not_mem (sep : Char) (l : List Char) (h : sep ∉ l) :
    splitOnChar sep l = [l] := by
  induction l with
  | nil => rfl
  | cons c rest ih =>
    have hc : c ≠ sep := by intro e; exact h (by simp [e])
    have hrest : sep ∉ rest := fun m => h (List.mem_cons_of_mem _ m)
    simp [splitOnChar, hc, ih hrest]

theorem splitOnChar_append_cons (sep : Char) (pre post : List Char) (h : sep ∉ pre) :
    splitOnChar sep (pre ++ sep :: post) = pre :: splitOnChar sep post := by
  induction pre with
  | nil => simp [splitOnChar]
  | cons x xs ih =>
    have hx : x ≠ sep := by intro e; exact h (by simp [e])
    have hxs : sep ∉ xs := fun m => h (List.mem_cons_of_mem _ m)
    simp [splitOnChar, hx, ih hxs]

theorem split_part_two (pre post : List Char) (hpre : '@' ∉ pre) (hpost : '@' ∉ post) :
    split_part (pre ++ '@' :: post) '@' 2 = post := by
  unfold split_part
  rw [splitOnChar_append_cons _ _ _ hpre, splitOnChar_of_not_mem _ _ hpost]
  rfl

theorem drop_append_cons (pre post : List Char) (a : Char) :
    (pre ++ a :: post).drop (pre.length + 1) = post := by
  rw [show pre ++ a :: post = (pre ++ [a]) ++ post by simp,
      show pre.length + 1 = (pre ++ [a]).length by simp]
  exact List.drop_left _ _

theorem pgSubstringFrom_one (l : List Char) :
    pgSubstringFrom l ((pgLength l : Int) - 1) = l.drop (l.length - 2) := by
  unfold pgSubstringFrom pgLength
  congr 1
  omega

theorem pgSubstringFrom_two (l : List Char) :
    pgSubstringFrom l ((pgLength l : Int) - 2) = l.drop (l.length - 3) := by
  unfold pgSubstringFrom pgLength
  congr 1
  omega

theorem pgSubstringFrom_three (l : List Char) :
    pgSubstringFrom l ((pgLength l : Int) - 3) = l.drop (l.length - 4) := by
  unfold pgSubstringFrom pgLength
  congr 1
  omega

theorem maskEval_email_pg (l : List Char) :
    maskEval "email" "postgresql" (some l) =
      if '@' ∈ l then some (pgSubstring l 1 3 ++ "***@".data ++ split_part l '@' 2)
      else none := rfl

theorem maskEval_email_ss (l : List Char) :
    maskEval "email" "sqlserver" (some l) =
      if '@' ∈ l ∧ charindex '@' l > 3 then
        some (sqlLeft l 3 ++ "***@".data
          ++ tsqlSubstring l (charindex '@' l + 1) (sqlLen l - charindex '@' l))
      else none := rfl

theorem maskEval_name_pg (l : List Char) :
    maskEval "name" "postgresql" (some l) =
      some ("***".data ++ pgSubstringFrom l ((pgLength l : Int) - 1)) := rfl

theorem maskEval_name_ss (l : List Char) :
    maskEval "name" "sqlserver" (some l) = some ("***".data ++ sqlRight l 2) := rfl

theorem maskEval_phone_pg (l : List Char) :
    maskEval "phone" "postgresql" (some l) =
      some ("***-***-".data ++ pgSubstringFrom l ((pgLength l : Int) - 3)) := rfl

theorem maskEval_phone_ss (l : List Char) :
    maskEval "phone" "sqlserver" (some l) = some ("***-***-".data ++ sqlRight l 4) := rfl

theorem maskEval_id_pg (l : List Char) :
    maskEval "id" "postgresql" (some l) =
      some ("***".data ++ pgSubstringFrom l ((pgLength l : Int) - 2)) := rfl

theorem maskEval_id_ss (l : List Char) :
    maskEval "id" "sqlserver" (some l) = some ("***".data ++ sqlRight l 3) := rfl

/-! ## The claims -/

/-- C4: for every recognized mask pattern and both dialects, the generated
SQL expression evaluates to NULL on a NULL input — never to an empty
string and never to the literal mask placeholder.  (The generated
expression quotes the column name but its value semantics does not depend
on it: `maskEval` evaluates the expression on the column's value.) -/
theorem C4_null_preserving (p db : String)
    (_hp : p = "name" ∨ p = "phone" ∨ p = "id" ∨ p = "email")
    (_hdb : db = "postgresql" ∨ db = "sqlserver") :
    maskEval p db none = none
      ∧ maskEval p db none ≠ some []
      ∧ maskEval p db none ≠ some "***".data := by
  refine ⟨rfl, ?_, ?_⟩ <;> · intro h; exact Option.noConfusion h

theorem C4_null_preserving_witness :
    maskEval "email" "postgresql" none = none
      ∧ maskEval "email" "postgresql" none ≠ some []
      ∧ maskEval "email" "postgresql" none ≠ some "***".data :=
  C4_null_preserving "email" "postgresql" (by simp) (by simp)

/-- C8: `quote_field_name` wraps a name verbatim in double quotes for
postgresql and in square brackets for sqlserver (no escaping of embedded
quote characters — the name is embedded unchanged), and
`quote_table_name` applies exactly the same rule, so the two functions
agree on every input. -/
theorem C8_quoting_rules (nm : String) :
    quote_field_name nm "postgresql" = "\"" ++ nm ++ "\""
      ∧ quote_field_name nm "sqlserver" = "[" ++ nm ++ "]"
      ∧ ∀ db : String, quote_table_name nm db = quote_field_name nm db := by
  refine ⟨rfl, rfl, ?_⟩
  intro db
  by_cases h : db = "sqlserver" <;> simp [quote_table_name, quote_field_name, h]

/-- C6: statement assembly and masking-fragment generation are
deterministic pure functions — identical inputs (same resolved dialect,
same source and destination table names; same column name and pattern)
always yield byte-identical SQL strings (Lean `String` equality is
equality of the character sequence). -/
theorem C6_deterministic (db₁ db₂ src₁ src₂ out₁ out₂ : String)
    (hdb : db₁ = db₂) (hsrc : src₁ = src₂) (hout : out₁ = out₂) :
    insertQuery db₁ src₁ out₁ = insertQuery db₂ src₂ out₂
      ∧ ∀ f₁ f₂ p₁ p₂ : String, f₁ = f₂ → p₁ = p₂ →
          get_masked_field_sql f₁ p₁ db₁ = get_masked_field_sql f₂ p₂ db₂ := by
  subst hdb; subst hsrc; subst hout
  exact ⟨rfl, fun f₁ f₂ p₁ p₂ hf hp => by rw [hf, hp]⟩

theorem C6_deterministic_witness :
    insertQuery "postgresql" "src_t" "out_t" = insertQuery "postgresql" "src_t" "out_t"
      ∧ get_masked_field_sql "email" "email" "postgresql"
          = get_masked_field_sql "email" "email" "postgresql" :=
  ⟨(C6_deterministic "postgresql" "postgresql" "src_t" "src_t" "out_t" "out_t" rfl rfl rfl).1,
   (C6_deterministic "postgresql" "postgresql" "src_t" "src_t" "out_t" "out_t" rfl rfl rfl).2
     "email" "email" "email" "email" rfl rfl⟩

/-- C10: `get_masked_field_sql` is total over arbitrary pattern strings:
any pattern outside {name, phone, id, email} reaches the final fallback
and returns `CASE WHEN <quoted column> IS NOT NULL THEN '***' ELSE NULL
END` (for any dialect string), whose evaluation fully redacts a non-NULL
input to the literal `***` and preserves NULL. -/
theorem C10_fallback_total (f p db : String) (h1 : p ≠ "name") (h2 : p ≠ "phone")
    (h3 : p ≠ "id") (h4 : p ≠ "email") :
    get_masked_field_sql f p db =
        "CASE WHEN " ++ quote_field_name f db ++ " IS NOT NULL THEN '***' ELSE NULL END"
      ∧ maskEval p db none = none
      ∧ ∀ l : List Char, maskEval p db (some l) = some "***".data :=
  ⟨masked_sql_fallback f p db h1 h2 h3 h4, rfl,
   fun l => maskEval_fallback p db l h1 h2 h3 h4⟩

theorem C10_fallback_total_witness :
    get_masked_field_sql "email" "ssn" "postgresql" =
        "CASE WHEN " ++ quote_field_name "email" "postgresql"
          ++ " IS NOT NULL THEN '***' ELSE NULL END"
      ∧ maskEval "ssn" "postgresql" none = none :=
  ⟨(C10_fallback_total "email" "ssn" "postgresql" (by decide) (by decide) (by decide)
      (by decide)).1,
   (C10_fallback_total "email" "ssn" "postgresql" (by decide) (by decide) (by decide)
      (by decide)).2.1⟩

/-- C2 counterexample: the claim says an unrecognized mask pattern is
surfaced as an error before statement assembly and never silently
ignored.  In the code, `get_masked_field_sql` with the unrecognized
pattern `ssn` raises nothing: it returns the ordinary full-redaction
fallback expression, which does not mention the pattern at all and is
identical to the output for the distinct unrecognized pattern `zzz`. -/
theorem C2_cex_silent_fallback :
    get_masked_field_sql "email" "ssn" "postgresql" =
        "CASE WHEN \"email\" IS NOT NULL THEN '***' ELSE NULL END"
      ∧ get_masked_field_sql "email" "ssn" "postgresql"
          = get_masked_field_sql "email" "zzz" "postgresql"
      ∧ pyIn "ssn" (get_masked_field_sql "email" "ssn" "postgresql") = false := by
  decide

/-- C2 amended: a mask pattern outside the recognized set {name, phone,
id, email} is NOT surfaced as an error: `get_masked_field_sql` silently
returns the full-redaction fallback expression, and the returned
expression is the same for every unrecognized pattern (the pattern value
is ignored). -/
theorem C2_amended_silent (f p db : String) (h1 : p ≠ "name") (h2 : p ≠ "phone")
    (h3 : p ≠ "id") (h4 : p ≠ "email") :
    get_masked_field_sql f p db =
        "CASE WHEN " ++ quote_field_name f db ++ " IS NOT NULL THEN '***' ELSE NULL END"
      ∧ ∀ q : String, q ≠ "name" → q ≠ "phone" → q ≠ "id" → q ≠ "email" →
          get_masked_field_sql f p db = get_masked_field_sql f q db := by
  refine ⟨masked_sql_fallback f p db h1 h2 h3 h4, fun q g1 g2 g3 g4 => ?_⟩
  rw [masked_sql_fallback f p db h1 h2 h3 h4, masked_sql_fallback f q db g1 g2 g3 g4]

theorem C2_amended_silent_witness :
    get_masked_field_sql "email" "ssn" "postgresql" =
      "CASE WHEN " ++ quote_field_name "email" "postgresql"
        ++ " IS NOT NULL THEN '***' ELSE NULL END" :=
  (C2_amended_silent "email" "ssn" "postgresql" (by decide) (by decide) (by decide)
    (by decide)).1

/-- C7 counterexample: the claim says `get_database_type` returns
`sqlserver` whenever the lowercased driver name contains `mssql` or
`sqlserver`.  The driver name `mssql_postgres` contains `mssql`, yet the
code returns `postgresql`, because the `postgres` check runs first. -/
theorem C7_cex_precedence :
    pyIn "mssql" (pyLower "mssql_postgres") = true
      ∧ get_database_type "mssql_postgres" = "postgresql" := by
  decide

/-- C7 amended: `get_database_type` is total and always returns
`postgresql` or `sqlserver`; the `postgres` substring check takes
precedence: a (lowercased) name containing `postgres` resolves to
`postgresql` even if it also contains `mssql`/`sqlserver`; a name
containing `mssql` or `sqlserver` but not `postgres` resolves to
`sqlserver`; every other name falls back to `postgresql`.  Matching is
case-insensitive via lowercasing. -/
theorem C7_amended_dialect (s : String) :
    ((pyIn "postgresql" (pyLower s) || pyIn "postgres" (pyLower s)) = true →
        get_database_type s = "postgresql")
      ∧ ((pyIn "postgresql" (pyLower s) || pyIn "postgres" (pyLower s)) = false →
          (pyIn "mssql" (pyLower s) || pyIn "sqlserver" (pyLower s)) = true →
            get_database_type s = "sqlserver")
      ∧ ((pyIn "postgresql" (pyLower s) || pyIn "postgres" (pyLower s)) = false →
          (pyIn "mssql" (pyLower s) || pyIn "sqlserver" (pyLower s)) = false →
            get_database_type s = "postgresql")
      ∧ (get_database_type s = "postgresql" ∨ get_database_type s = "sqlserver") := by
  refine ⟨fun h1 => ?_, fun h1 h2 => ?_, fun h1 h2 => ?_, ?_⟩
  · simp [get_database_type, h1]
  · simp [get_database_type, h1, h2]
  · simp [get_database_type, h1, h2]
  · unfold get_database_type
    by_cases h1 : (pyIn "postgresql" (pyLower s) || pyIn "postgres" (pyLower s)) = true
    · simp [h1]
    · by_cases h2 : (pyIn "mssql" (pyLower s) || pyIn "sqlserver" (pyLower s)) = true
      · simp [h1, h2]
      · simp [h1, h2]

/-- C9: for the name, phone and id patterns, in both dialects, the
generated expression on a non-NULL input of length at least N (2 for
name, 4 for phone, 3 for id) evaluates to the fixed literal prefix
(`***`, `***-***-`, `***`) followed by exactly the last N characters of
the input (the unique length-N suffix). -/
theorem C9_prefix_and_suffix (db : String) (hdb : db = "postgresql" ∨ db = "sqlserver")
    (l : List Char) :
    (2 ≤ l.length → ∃ pre suf : List Char, l = pre ++ suf ∧ suf.length = 2 ∧
        maskEval "name" db (some l) = some ("***".data ++ suf))
      ∧ (4 ≤ l.length → ∃ pre suf : List Char, l = pre ++ suf ∧ suf.length = 4 ∧
          maskEval "phone" db (some l) = some ("***-***-".data ++ suf))
      ∧ (3 ≤ l.length → ∃ pre suf : List Char, l = pre ++ suf ∧ suf.length = 3 ∧
          maskEval "id" db (some l) = some ("***".data ++ suf)) := by
  rcases hdb with rfl | rfl
  · refine
      ⟨fun h => ⟨l.take (l.length - 2), l.drop (l.length - 2),
          (List.take_append_drop _ _).symm, ?_, ?_⟩,
        fun h => ⟨l.take (l.length - 4), l.drop (l.length - 4),
          (List.take_append_drop _ _).symm, ?_, ?_⟩,
        fun h => ⟨l.take (l.length - 3), l.drop (l.length - 3),
          (List.take_append_drop _ _).symm, ?_, ?_⟩⟩
    · rw [List.length_drop]; omega
    · rw [maskEval_name_pg, pgSubstringFrom_one]
    · rw [List.length_drop]; omega
    · rw [maskEval_phone_pg, pgSubstringFrom_three]
    · rw [List.length_drop]; omega
    · rw [maskEval_id_pg, pgSubstringFrom_two]
  · refine
      ⟨fun h => ⟨l.take (l.length - 2), l.drop (l.length - 2),
          (List.take_append_drop _ _).symm, ?_, maskEval_name_ss l⟩,
        fun h => ⟨l.take (l.length - 4), l.drop (l.length - 4),
          (List.take_append_drop _ _).symm, ?_, maskEval_phone_ss l⟩,
        fun h => ⟨l.take (l.length - 3), l.drop (l.length - 3),
          (List.take_append_drop _ _).symm, ?_, maskEval_id_ss l⟩⟩
    · rw [List.length_drop]; omega
    · rw [List.length_drop]; omega
    · rw [List.length_drop]; omega

theorem C9_prefix_and_suffix_witness :
    ∃ pre suf : List Char, "alice".data = pre ++ suf ∧ suf.length = 2 ∧
      maskEval "name" "postgresql" (some "alice".data) = some ("***".data ++ suf) :=
  (C9_prefix_and_suffix "postgresql" (Or.inl rfl) "alice".data).1 (by decide)

/-- C1 counterexample: the claim says that in both dialects any non-NULL
input containing an `@` evaluates to first-3-chars + `***@` + the text
after the `@`.  The input `ab@c` contains an `@`, yet the sqlserver
expression evaluates to NULL (its extra guard `CHARINDEX('@', f) > 3`
fails); and on `a@b@c` the postgresql expression yields `a@b***@b`
(`SPLIT_PART(f, '@', 2)` is the text between the first two `@`s), not
first-3-chars + `***@` + the text `b@c` after the first `@`. -/
theorem C1_cex_email :
    '@' ∈ "ab@c".data
      ∧ maskEval "email" "sqlserver" (some "ab@c".data) = none
      ∧ '@' ∈ "a@b@c".data
      ∧ maskEval "email" "postgresql" (some "a@b@c".data) = some "a@b***@b".data
      ∧ "a@b***@b".data ≠ "a@b@c".data.take 3 ++ "***@".data ++ "b@c".data := by
  decide

/-- C1 amended: in both dialects, the email expression evaluates to NULL
on any input without an `@`; and on any input with exactly one `@`
preceded by at least 3 characters (input = pre ++ `@` ++ post, `@` in
neither part, 3 ≤ |pre|), it evaluates to the first 3 characters of the
input followed by `***@` and the text after the `@`.  (Inputs whose only
`@` sits within the first three characters are NULL on sqlserver but not
on postgresql, and inputs with several `@`s differ between the dialects,
as the counterexample shows.)  Evaluation does not depend on the column
name: the generated expression references the column only through its
value. -/
theorem C1_amended_email (db : String) (hdb : db = "postgresql" ∨ db = "sqlserver") :
    (∀ l : List Char, '@' ∉ l → maskEval "email" db (some l) = none)
      ∧ (∀ pre post : List Char, 3 ≤ pre.length → '@' ∉ pre → '@' ∉ post →
          maskEval "email" db (some (pre ++ '@' :: post)) =
            some ((pre ++ '@' :: post).take 3 ++ "***@".data ++ post)) := by
  rcases hdb with rfl | rfl
  · refine ⟨fun l hl => ?_, fun pre post h3 hpre hpost => ?_⟩
    · rw [maskEval_email_pg, if_neg hl]
    · have hmem : '@' ∈ pre ++ '@' :: post :=
        List.mem_append_right _ (List.mem_cons_self _ _)
      rw [maskEval_email_pg, if_pos hmem, split_part_two pre post hpre hpost]
      simp [pgSubstring]
  · refine ⟨fun l hl => ?_, fun pre post h3 hpre hpost => ?_⟩
    · rw [maskEval_email_ss, if_neg (fun hc => hl hc.1)]
    · have hmem : '@' ∈ pre ++ '@' :: post :=
        List.mem_append_right _ (List.mem_cons_self _ _)
      have hci : charindex '@' (pre ++ '@' :: post) = pre.length + 1 :=
        charindex_append_cons '@' pre post hpre
      have hgt : charindex '@' (pre ++ '@' :: post) > 3 := by rw [hci]; omega
      have hsub : sqlLen (pre ++ '@' :: post) - (pre.length + 1) = post.length := by
        simp only [sqlLen, List.length_append, List.length_cons]
        omega
      rw [maskEval_email_ss, if_pos ⟨hmem, hgt⟩, hci]
      unfold tsqlSubstring sqlLeft
      rw [(by omega : pre.length + 1 + 1 - 1 = pre.length + 1), drop_append_cons pre post '@',
        hsub, List.take_length]

theorem C1_amended_email_witness :
    maskEval "email" "postgresql" (some ("ali".data ++ '@' :: "company.com".data)) =
      some (("ali".data ++ '@' :: "company.com".data).take 3 ++ "***@".data
        ++ "company.com".data) :=
  (C1_amended_email "postgresql" (Or.inl rfl)).2 "ali".data "company.com".data
    (by decide) (by decide) (by decide)

/-- C3 counterexample: the claim says `executeTransformer` returns the
engine-reported affected-row count to its caller.  The Python function is
annotated `-> None` and ends with a `print`, not a `return`: with the
engine reporting 5 affected rows, the value returned to the caller is
`None`, not 5. -/
theorem C3_cex_returns_none :
    (executeTransformer "postgresql+psycopg2" "src_t" "out_t" 5).returned = none
      ∧ (executeTransformer "postgresql+psycopg2" "src_t" "out_t" 5).returned ≠ some 5 :=
  ⟨rfl, fun h => Option.noConfusion h⟩

/-- C3 amended: on success `executeTransformer` reports the
engine-reported affected-row count only in its printed success message
(`Successfully processed and masked N customer records`) and returns no
value (`None`) to its caller. -/
theorem C3_amended_rowcount (dialect_name src out : String) (rowcount : Nat) :
    (executeTransformer dialect_name src out rowcount).returned = none
      ∧ ("Successfully processed and masked " ++ toString rowcount ++ " customer records")
          ∈ (executeTransformer dialect_name src out rowcount).printed := by
  refine ⟨rfl, ?_⟩
  simp [executeTransformer]

/-- C5: in the assembled INSERT…SELECT statement, the pass-through
columns `id` (the primary key) and `dob` appear in the SELECT list as
bare quoted column references (no `CASE` masking expression), while the
other six columns are the `get_masked_field_sql` masking expressions
aliased to the quoted column names — so `id` and `dob` are copied
unchanged and the rest are masked. -/
theorem C5_pass_through_columns (src out db : String)
    (hdb : db = "postgresql" ∨ db = "sqlserver") :
    insertQuery db src out =
        "\n    INSERT INTO " ++ quote_table_name out db
          ++ "\n    (" ++ quote_field_name "id" db ++ ", " ++ quote_field_name "firstname" db
          ++ ", " ++ quote_field_name "lastname" db ++ ", " ++ quote_field_name "dob" db
          ++ ", " ++ quote_field_name "email" db ++ ", " ++ quote_field_name "phone" db
          ++ ", " ++ quote_field_name "primaryaddressid" db ++ ", "
          ++ quote_field_name "billingaddressid" db
          ++ ")\n    SELECT\n        " ++ quote_field_name "id" db
          ++ ",\n        " ++ get_masked_field_sql "firstname" "name" db ++ " as "
          ++ quote_field_name "firstname" db
          ++ ",\n        " ++ get_masked_field_sql "lastname" "name" db ++ " as "
          ++ quote_field_name "lastname" db
          ++ ",\n        " ++ quote_field_name "dob" db
          ++ ",\n        " ++ get_masked_field_sql "email" "email" db ++ " as "
          ++ quote_field_name "email" db
          ++ ",\n        " ++ get_masked_field_sql "phone" "phone" db ++ " as "
          ++ quote_field_name "phone" db
          ++ ",\n        " ++ get_masked_field_sql "primaryaddressid" "id" db ++ " as "
          ++ quote_field_name "primaryaddressid" db
          ++ ",\n        " ++ get_masked_field_sql "billingaddressid" "id" db ++ " as "
          ++ quote_field_name "billingaddressid" db
          ++ "\n    FROM " ++ quote_table_name src db
          ++ "\n    "
      ∧ pyIn "CASE" (quote_field_name "id" db) = false
      ∧ pyIn "CASE" (quote_field_name "dob" db) = false
      ∧ pyIn "CASE" (get_masked_field_sql "firstname" "name" db) = true
      ∧ pyIn "CASE" (get_masked_field_sql "lastname" "name" db) = true
      ∧ pyIn "CASE" (get_masked_field_sql "email" "email" db) = true
      ∧ pyIn "CASE" (get_masked_field_sql "phone" "phone" db) = true
      ∧ pyIn "CASE" (get_masked_field_sql "primaryaddressid" "id" db) = true
      ∧ pyIn "CASE" (get_masked_field_sql "billingaddressid" "id" db) = true := by
  rcases hdb with rfl | rfl <;>
    exact ⟨rfl, by decide, by decide, by decide, by decide, by decide, by decide, by decide,
      by decide⟩

theorem C5_pass_through_columns_witness :
    pyIn "CASE" (quote_field_name "id" "postgresql") = false
      ∧ pyIn "CASE" (quote_field_name "dob" "postgresql") = false :=
  ⟨(C5_pass_through_columns "src_t" "out_t" "postgresql" (Or.inl rfl)).2.1,
   (C5_pass_through_columns "src_t" "out_t" "postgresql" (Or.inl rfl)).2.2.1⟩

end YellowTransformer
